import Mathlib

/-!
Shallow embedding of `src/drivers/net/phy/ac200.c` (AC200 Ethernet PHY driver).

The driver is straight-line code issuing register accesses over two buses:
the MDIO bus of the PHY itself (`phy_write` / `phy_read`) and the parent
AC200 chip's control interface (`ac200_reg_write` / `ac200_reg_mod`).
We embed each routine as a function from its environment (read results,
write statuses, interface mode, NVMEM contents) to the list of bus
operations it issues, paired with its integer return value.  Machine
integers are modelled as `Nat` with explicit truncation where the C types
force it (`u16` assignment truncates mod 2^16; `unsigned int` bitwise
complement of a bit is a 32-bit mask).
-/

namespace AC200

/-- BIT(n) from the kernel headers. -/
def BIT (n : Nat) : Nat := 1 <<< n

/-- macros for system ephy control 0 register -/
def AC200_EPHY_RESET_INVALID : Nat := BIT 0

def AC200_EPHY_SYSCLK_GATING : Nat := BIT 1

/-- macros for system ephy control 1 register -/
def AC200_EPHY_E_EPHY_MII_IO_EN : Nat := BIT 0

def AC200_EPHY_E_LNK_LED_IO_EN : Nat := BIT 1

def AC200_EPHY_E_SPD_LED_IO_EN : Nat := BIT 2

def AC200_EPHY_E_DPX_LED_IO_EN : Nat := BIT 3

/-- macros for ephy control register -/
def AC200_EPHY_SHUTDOWN : Nat := BIT 0

def AC200_EPHY_LED_POL : Nat := BIT 1

def AC200_EPHY_CLK_SEL : Nat := BIT 2

def AC200_EPHY_ADDR (x : Nat) : Nat := (x &&& 0x1F) <<< 4

def AC200_EPHY_XMII_SEL : Nat := BIT 11

def AC200_EPHY_CALIB (x : Nat) : Nat := (x &&& 0xF) <<< 12

/-- Error numbers used by the driver (`-EINVAL` return, `-ENOMEM` on failed
allocation). -/
def EINVAL : Int := 22

def ENOMEM : Int := 12

/-- The three AC200 control registers the driver touches.  Their numeric
addresses live in `linux/mfd/ac200.h`, outside `src/`; the driver refers to
them only symbolically, so we embed them as a symbolic enumeration. -/
inductive AcReg where
  | sysEphyCtl0
  | sysEphyCtl1
  | ephyCtl
deriving DecidableEq, Repr

/-- One bus operation issued by the driver.  `phyRead reg v` records that the
driver read PHY register `reg` and the bus returned `v` (the read results are
the environment's choice, threaded in as oracle inputs).  `phyRegister` and
`phyUnregister` record the calls to `phy_driver_register` /
`phy_driver_unregister`. -/
inductive Op where
  | phyWrite (reg val : Nat)
  | phyRead (reg val : Nat)
  | acWrite (reg : AcReg) (val : Nat)
  | acMod (reg : AcReg) (mask val : Nat)
  | phyRegister
  | phyUnregister
deriving DecidableEq, Repr

/-- PHY interface modes; the driver only ever compares against
`PHY_INTERFACE_MODE_RMII`, so a small representative enumeration suffices. -/
inductive PhyInterface where
  | mii
  | rmii
  | rgmii
  | internal
deriving DecidableEq, Repr

/-- disable_intelligent_ieee: switch to page 1, read register 0x17, clear
BIT(3) (`value` has C type `unsigned int`, so `~BIT(3)` is the 32-bit mask
0xFFFFFFF7), write it back, switch to page 0.  `r17` is the value the bus
returned for the read. -/
def disable_intelligent_ieee (r17 : Nat) : List Op :=
  [Op.phyWrite 0x1f 0x0100,
   Op.phyRead 0x17 r17,
   Op.phyWrite 0x17 (r17 &&& 0xFFFFFFF7),
   Op.phyWrite 0x1f 0x0000]

/-- disable_802_3az_ieee: clear BIT(1) of MMD device 7 register 0x3c through
the indirect-access registers 0xd/0xe, then write 0 to page-2 register 0x18.
`re` is the value the bus returned for the read of register 0xe.
`BIT(14) | 0x7 = 0x4007`; `~BIT(1)` on `unsigned int` is 0xFFFFFFFD. -/
def disable_802_3az_ieee (re : Nat) : List Op :=
  [Op.phyWrite 0xd 0x7,
   Op.phyWrite 0xe 0x3c,
   Op.phyWrite 0xd 0x4007,
   Op.phyRead 0xe re,
   Op.phyWrite 0xd 0x7,
   Op.phyWrite 0xe 0x3c,
   Op.phyWrite 0xd 0x4007,
   Op.phyWrite 0xe (re &&& 0xFFFFFFFD),
   Op.phyWrite 0x1f 0x0200,
   Op.phyWrite 0x18 0x0000]

/-- ac200_ephy_config_init.  `mode` is `phydev->interface`; `reads n` is the
value the bus returns for the n-th `phy_read` issued (the routine performs
three reads: page-1 reg 0x17, MMD reg via 0xe, and page-0 reg 0x13); `werr n`
is the status the bus would return for the n-th `phy_write`.  The C code
never inspects any `phy_write` return value and ends with `return 0`, which
is why `werr` does not occur in the body.  The final read is assigned to a
`u16` local, hence the `% 65536`; `|= BIT(12)` is `||| 4096`. -/
def ac200_ephy_config_init (mode : PhyInterface) (reads : Nat → Nat)
    (werr : Nat → Int) : List Op × Int :=
  ([Op.phyWrite 0x1f 0x0100,      -- Switch to Page 1
    Op.phyWrite 0x12 0x4824,      -- Disable APS
    Op.phyWrite 0x1f 0x0200,      -- Switch to Page 2
    Op.phyWrite 0x18 0x0000,      -- PHYAFE TRX optimization
    Op.phyWrite 0x1f 0x0600,      -- Switch to Page 6
    Op.phyWrite 0x14 0x708f,      -- PHYAFE TX optimization
    Op.phyWrite 0x13 0xF000,      -- PHYAFE RX optimization
    Op.phyWrite 0x15 0x1530,
    Op.phyWrite 0x1f 0x0800,
    Op.phyWrite 0x18 0x00bc]      -- PHYAFE TRX optimization
   ++ disable_intelligent_ieee (reads 0)
   ++ disable_802_3az_ieee (reads 1)
   ++ [Op.phyWrite 0x1f 0x0000,   -- Switch to Page 0
       Op.acMod AcReg.ephyCtl AC200_EPHY_XMII_SEL
         (if mode = PhyInterface.rmii then AC200_EPHY_XMII_SEL else 0),
       Op.phyRead 0x13 (reads 2),
       Op.phyWrite 0x13 ((reads 2 % 65536) ||| BIT 12)],
   0)

/-- Modelled from the spec: `ac200_reg_mod` is implemented by the AC200 MFD
core (`linux/mfd/ac200.h`), which is not under `src/`.  Per the spec it is a
masked register update ("a single interface-mode check" selecting one bit of
the control register): only the bits selected by `mask` change, taking their
new values from `val`; all other bits of the old register value are kept.
`old ^^^ (old &&& mask)` clears the masked bits of `old`. -/
def ac200_reg_mod_apply (old mask val : Nat) : Nat :=
  (old ^^^ (old &&& mask)) ||| (val &&& mask)

/-- Environment of one `ac200_ephy_probe` invocation: whether the two
`devm_kzalloc` calls succeed, the result of `devm_nvmem_cell_get` (an error
pointer or a cell), the result of `nvmem_cell_read` (an error pointer or the
`u16` pointed to by `caldata` together with `callen`), the statuses returned
by the three `ac200_reg_write` calls, and the status returned by
`phy_driver_register`. -/
structure ProbeEnv where
  privAlloc : Bool
  ephyAlloc : Bool
  calcell : Except Int Unit
  cellRead : Except Int (Nat × Nat)
  w0 : Int
  w1 : Int
  w2 : Int
  regRet : Int
deriving Repr

/-- ac200_ephy_probe: allocation checks, NVMEM calibration cell lookup and
read, length check, then three `ac200_reg_write` calls each followed by an
error check, then `phy_driver_register` with an error check.
`calib = *caldata + 3` assigns `int` arithmetic to a `u16`, hence
`% 65536`. -/
def ac200_ephy_probe (env : ProbeEnv) : List Op × Int :=
  if ¬ env.privAlloc then ([], -ENOMEM)
  else if ¬ env.ephyAlloc then ([], -ENOMEM)
  else match env.calcell with
  | Except.error e => ([], e)
  | Except.ok _ =>
    match env.cellRead with
    | Except.error e => ([], e)
    | Except.ok (caldata, callen) =>
      if callen ≠ 2 then ([], -EINVAL)
      else
        let calib := (caldata + 3) % 65536
        let t0 := [Op.acWrite AcReg.sysEphyCtl0
                     (AC200_EPHY_RESET_INVALID ||| AC200_EPHY_SYSCLK_GATING)]
        if env.w0 ≠ 0 then (t0, env.w0)
        else
          let t1 := t0 ++ [Op.acWrite AcReg.sysEphyCtl1
                             (AC200_EPHY_E_EPHY_MII_IO_EN |||
                              AC200_EPHY_E_LNK_LED_IO_EN |||
                              AC200_EPHY_E_SPD_LED_IO_EN |||
                              AC200_EPHY_E_DPX_LED_IO_EN)]
          if env.w1 ≠ 0 then (t1, env.w1)
          else
            let t2 := t1 ++ [Op.acWrite AcReg.ephyCtl
                               (AC200_EPHY_LED_POL |||
                                AC200_EPHY_CLK_SEL |||
                                AC200_EPHY_ADDR 1 |||
                                AC200_EPHY_CALIB calib)]
            if env.w2 ≠ 0 then (t2, env.w2)
            else
              let t3 := t2 ++ [Op.phyRegister]
              if env.regRet ≠ 0 then (t3, env.regRet)
              else (t3, 0)

/-- ac200_ephy_remove: unregister the PHY driver, then power the PHY down
with three `ac200_reg_write` calls whose statuses (`werr n` for the n-th
write) the C code discards, and return 0. -/
def ac200_ephy_remove (werr : Nat → Int) : List Op × Int :=
  ([Op.phyUnregister,
    Op.acWrite AcReg.ephyCtl AC200_EPHY_SHUTDOWN,
    Op.acWrite AcReg.sysEphyCtl1 0,
    Op.acWrite AcReg.sysEphyCtl0 0], 0)

/-- Values written to the AC200 EPHY control register in a trace. -/
def ephyCtlWrites (t : List Op) : List Nat :=
  t.filterMap fun op =>
    match op with
    | Op.acWrite AcReg.ephyCtl v => some v
    | _ => none

/-- The calibration field of an EPHY control register value: bits 15:12. -/
def calibField (v : Nat) : Nat := (v >>> 12) &&& 0xF

/-- Registers of the AC200 control-register writes in a trace, in order. -/
def acWriteRegs (t : List Op) : List AcReg :=
  t.filterMap fun op =>
    match op with
    | Op.acWrite r _ => some r
    | _ => none

/-- Whether an operation is an AC200 control-register write. -/
def Op.isAcWrite : Op → Bool
  | Op.acWrite _ _ => true
  | _ => false

/-- The shape of an operation: which kind of access to which register,
forgetting data values.  Used to state that control flow (which accesses
happen, in which order) is input-independent. -/
def opShape : Op → Op
  | Op.phyWrite r _ => Op.phyWrite r 0
  | Op.phyRead r _ => Op.phyRead r 0
  | Op.acWrite r _ => Op.acWrite r 0
  | Op.acMod r m _ => Op.acMod r m 0
  | Op.phyRegister => Op.phyRegister
  | Op.phyUnregister => Op.phyUnregister

/-- The acMod operations of a trace, as (register, mask, value) triples. -/
def acMods (t : List Op) : List (AcReg × Nat × Nat) :=
  t.filterMap fun op =>
    match op with
    | Op.acMod r m v => some (r, m, v)
    | _ => none

/-- A probe environment on the fully-checked path: allocations succeed, the
calibration cell is found and reads back the `u16` `v` with length 2, and the
bus/registration statuses are `w0 w1 w2 r`. -/
def goodEnv (v : Nat) (w0 w1 w2 r : Int) : ProbeEnv :=
  ⟨true, true, Except.ok (), Except.ok (v, 2), w0, w1, w2, r⟩

/-- A concrete probe environment whose calibration cell stores the value 0. -/
def probeEnvCal0 : ProbeEnv := goodEnv 0 0 0 0 0

/-! Helper lemmas -/

lemma land_fifteen (c : Nat) : c &&& 15 = c % 16 := by
  have h := Nat.and_pow_two_sub_one_eq_mod c 4
  norm_num at h
  exact h

lemma calibField_base (d : Nat) (hd : d < 16) :
    calibField (22 ||| (d <<< 12)) = d := by
  interval_cases d <;> decide

lemma ephyCtl_val_eq (c : Nat) :
    AC200_EPHY_LED_POL ||| AC200_EPHY_CLK_SEL ||| AC200_EPHY_ADDR 1 |||
      AC200_EPHY_CALIB c = 22 ||| ((c % 16) <<< 12) := by
  have h : AC200_EPHY_LED_POL ||| AC200_EPHY_CLK_SEL ||| AC200_EPHY_ADDR 1
      = 22 := by decide
  rw [AC200_EPHY_CALIB, land_fifteen, h]

lemma calibField_ephyCtl (c : Nat) :
    calibField (AC200_EPHY_LED_POL ||| AC200_EPHY_CLK_SEL |||
      AC200_EPHY_ADDR 1 ||| AC200_EPHY_CALIB c) = c % 16 := by
  rw [ephyCtl_val_eq]
  exact calibField_base _ (Nat.mod_lt _ (by norm_num))

lemma calib_mod_16 (v : Nat) : (v + 3) % 65536 % 16 = (v + 3) % 16 :=
  Nat.mod_mod_of_dvd _ (by norm_num)

lemma testBit_2048_self : Nat.testBit 2048 11 = true := by decide

lemma testBit_2048_ne (i : Nat) (hi : i ≠ 11) : Nat.testBit 2048 i = false := by
  have h := @Nat.testBit_two_pow_of_ne 11 i (fun h => hi h.symm)
  have e : (2 : Nat) ^ 11 = 2048 := by norm_num
  rw [e] at h
  exact h

lemma reg_mod_xmii_bit11 (old val : Nat) :
    (ac200_reg_mod_apply old AC200_EPHY_XMII_SEL val).testBit 11 = val.testBit 11 := by
  simp [ac200_reg_mod_apply, AC200_EPHY_XMII_SEL, BIT, testBit_2048_self]

lemma reg_mod_xmii_other (old val i : Nat) (hi : i ≠ 11) :
    (ac200_reg_mod_apply old AC200_EPHY_XMII_SEL val).testBit i = old.testBit i := by
  simp [ac200_reg_mod_apply, AC200_EPHY_XMII_SEL, BIT, testBit_2048_ne i hi]

lemma mask_f7_eq : (0xFFFFFFF7 : Nat) = (2 ^ 32 - 1) ^^^ 2 ^ 3 := by decide

lemma mask_fd_eq : (0xFFFFFFFD : Nat) = (2 ^ 32 - 1) ^^^ 2 ^ 1 := by decide

lemma mask_f7_testBit (i : Nat) (h32 : i < 32) (h3 : i ≠ 3) :
    Nat.testBit 0xFFFFFFF7 i = true := by
  have hne : (3 : Nat) ≠ i := fun h => h3 h.symm
  rw [mask_f7_eq, Nat.testBit_xor, Nat.testBit_two_pow_sub_one, Nat.testBit_two_pow]
  simp [h32, hne]

lemma mask_fd_testBit (i : Nat) (h32 : i < 32) (h1 : i ≠ 1) :
    Nat.testBit 0xFFFFFFFD i = true := by
  have hne : (1 : Nat) ≠ i := fun h => h1 h.symm
  rw [mask_fd_eq, Nat.testBit_xor, Nat.testBit_two_pow_sub_one, Nat.testBit_two_pow]
  simp [h32, hne]

/-- Value of the first probe write (AC200_SYS_EPHY_CTL0). -/
def sysCtl0Val : Nat := AC200_EPHY_RESET_INVALID ||| AC200_EPHY_SYSCLK_GATING

/-- Value of the second probe write (AC200_SYS_EPHY_CTL1). -/
def sysCtl1Val : Nat :=
  AC200_EPHY_E_EPHY_MII_IO_EN ||| AC200_EPHY_E_LNK_LED_IO_EN |||
  AC200_EPHY_E_SPD_LED_IO_EN ||| AC200_EPHY_E_DPX_LED_IO_EN

/-- Value of the third probe write (AC200_EPHY_CTL) for calibration word c. -/
def ephyCtlVal (c : Nat) : Nat :=
  AC200_EPHY_LED_POL ||| AC200_EPHY_CLK_SEL ||| AC200_EPHY_ADDR 1 |||
  AC200_EPHY_CALIB c

/-! Claim theorems -/

/-- C1 counterexample: with the calibration cell found and read with length
exactly 2 and storing the 16-bit value 0, the successful probe writes
AC200_EPHY_CTL exactly once, with value 0x3016, whose calibration field
(bits 15:12) is 3 — not the stored value 0.  The value applied is not the
value stored unmodified. -/
theorem probe_calib_unmodified_cex :
    ephyCtlWrites (ac200_ephy_probe probeEnvCal0).1 = [0x3016] ∧
    calibField 0x3016 = 3 ∧ (3 : Nat) ≠ 0 := by decide

/-- C1 (amended): for every probe in which the calibration cell is found and
read with length exactly 2, holding the 16-bit value v, every value probe
writes into AC200_EPHY_CTL carries calibration field (v + 3) % 16 — the
stored value offset by 3 with wraparound and truncated to the 4-bit field,
rather than the stored value unmodified. -/
theorem probe_calib_field_plus_three (pa ea : Bool) (v : Nat) (w0 w1 w2 r : Int) :
    ∀ x ∈ ephyCtlWrites
        (ac200_ephy_probe ⟨pa, ea, Except.ok (), Except.ok (v, 2), w0, w1, w2, r⟩).1,
      calibField x = (v + 3) % 16 := by
  intro x hx
  cases pa <;> cases ea <;>
    by_cases hw0 : w0 = 0 <;> by_cases hw1 : w1 = 0 <;> by_cases hw2 : w2 = 0 <;>
    by_cases hr : r = 0 <;>
    simp [ac200_ephy_probe, ephyCtlWrites, hw0, hw1, hw2, hr] at hx <;>
    simp [hx, calibField_ephyCtl, calib_mod_16]

/-- C1 amended witness: at the concrete environment with stored value 0 the
single AC200_EPHY_CTL write has calibration field (0 + 3) % 16 = 3. -/
theorem probe_calib_field_plus_three_witness : calibField 0x3016 = (0 + 3) % 16 :=
  probe_calib_field_plus_three true true 0 0 0 0 0 0x3016 (by decide)

/-- C2: if the calibration cell lookup fails with error e, probe returns e
(negative); if the cell read fails with error e, probe returns e; if the read
length is not 2, probe returns -EINVAL; in all three cases the trace is
empty — no control-register writes are performed and no PHY driver is
registered. -/
theorem probe_cell_failure_no_effects (e : Int) (he : e < 0)
    (cr : Except Int (Nat × Nat)) (v n : Nat) (w0 w1 w2 r : Int) :
    (ac200_ephy_probe ⟨true, true, Except.error e, cr, w0, w1, w2, r⟩ = ([], e) ∧
      (ac200_ephy_probe ⟨true, true, Except.error e, cr, w0, w1, w2, r⟩).2 < 0) ∧
    (ac200_ephy_probe ⟨true, true, Except.ok (), Except.error e, w0, w1, w2, r⟩
        = ([], e) ∧
      (ac200_ephy_probe ⟨true, true, Except.ok (), Except.error e, w0, w1, w2, r⟩).2
        < 0) ∧
    (n ≠ 2 →
      ac200_ephy_probe ⟨true, true, Except.ok (), Except.ok (v, n), w0, w1, w2, r⟩
        = ([], -EINVAL)) := by
  refine ⟨⟨rfl, he⟩, ⟨rfl, he⟩, fun hn => ?_⟩
  simp [ac200_ephy_probe, hn]

/-- C2 witness: probing with a missing calibration cell (error -19, ENODEV)
returns ([], -19). -/
theorem probe_cell_failure_no_effects_witness :
    ac200_ephy_probe ⟨true, true, Except.error (-19), Except.ok (0, 2), 0, 0, 0, 0⟩
      = ([], -19) :=
  (probe_cell_failure_no_effects (-19) (by norm_num) (Except.ok (0, 2)) 0 2
      0 0 0 0).1.1

/-- C9: the calibration field written into bits 15:12 of AC200_EPHY_CTL is
(v + 3) % 16 for every stored 16-bit value v, and any two stored values that
are congruent modulo 16 make probe issue the identical operation sequence. -/
theorem probe_calib_offset_mod16 (v v2 : Nat) (r : Int) :
    (ephyCtlWrites (ac200_ephy_probe (goodEnv v 0 0 0 r)).1).map calibField
        = [(v + 3) % 16] ∧
    (v % 16 = v2 % 16 →
      ac200_ephy_probe (goodEnv v 0 0 0 r) = ac200_ephy_probe (goodEnv v2 0 0 0 r)) := by
  constructor
  · by_cases hr : r = 0 <;>
      simp [goodEnv, ac200_ephy_probe, ephyCtlWrites, hr, calibField_ephyCtl,
        calib_mod_16]
  · intro h
    have hv : (v + 3) % 65536 &&& 15 = (v2 + 3) % 65536 &&& 15 := by
      rw [land_fifteen, land_fifteen, calib_mod_16, calib_mod_16,
          Nat.add_mod v 3, Nat.add_mod v2 3, h]
    simp [goodEnv, ac200_ephy_probe, AC200_EPHY_CALIB, hv]

/-- C9 witness: stored values 1 and 17 are congruent mod 16; probe writes the
calibration field (1 + 3) % 16 = 4 and issues identical traces for both. -/
theorem probe_calib_offset_mod16_witness :
    (ephyCtlWrites (ac200_ephy_probe (goodEnv 1 0 0 0 0)).1).map calibField
        = [(1 + 3) % 16] ∧
    ac200_ephy_probe (goodEnv 1 0 0 0 0) = ac200_ephy_probe (goodEnv 17 0 0 0 0) :=
  ⟨(probe_calib_offset_mod16 1 17 0).1,
   (probe_calib_offset_mod16 1 17 0).2 (by decide)⟩

/-- C3 counterexample: config_init invoked in an environment where every
phy_write would fail with status -5 still returns 0, not a negative status:
a phy_write failure inside config_init is not detected or propagated to the
caller, contrary to the claim. -/
theorem config_init_ignores_write_errors_cex :
    (ac200_ephy_config_init PhyInterface.mii (fun _ => 0) (fun _ => -5)).2 = 0 ∧
    ¬ (ac200_ephy_config_init PhyInterface.mii (fun _ => 0) (fun _ => -5)).2 < 0 :=
  ⟨rfl, by decide⟩

/-- C3 (amended): the three ac200_reg_write failures in probe are detected
locally and propagated: when the i-th write fails, probe returns its status
and has issued each preceding control-register write exactly once and the
failed write exactly once (no retry); config_init, however, inspects none of
its phy_write statuses and returns 0 unconditionally, so a register-write
failure during config_init is not propagated. -/
theorem write_error_propagation_amended (v : Nat) (w0 w1 w2 r : Int)
    (mode : PhyInterface) (reads : Nat → Nat) (werr : Nat → Int) :
    (w0 ≠ 0 → (ac200_ephy_probe (goodEnv v w0 w1 w2 r)).2 = w0 ∧
      acWriteRegs (ac200_ephy_probe (goodEnv v w0 w1 w2 r)).1
        = [AcReg.sysEphyCtl0]) ∧
    (w0 = 0 → w1 ≠ 0 → (ac200_ephy_probe (goodEnv v w0 w1 w2 r)).2 = w1 ∧
      acWriteRegs (ac200_ephy_probe (goodEnv v w0 w1 w2 r)).1
        = [AcReg.sysEphyCtl0, AcReg.sysEphyCtl1]) ∧
    (w0 = 0 → w1 = 0 → w2 ≠ 0 → (ac200_ephy_probe (goodEnv v w0 w1 w2 r)).2 = w2 ∧
      acWriteRegs (ac200_ephy_probe (goodEnv v w0 w1 w2 r)).1
        = [AcReg.sysEphyCtl0, AcReg.sysEphyCtl1, AcReg.ephyCtl]) ∧
    (ac200_ephy_config_init mode reads werr).2 = 0 := by
  refine ⟨fun h0 => ?_, fun h0 h1 => ?_, fun h0 h1 h2 => ?_, rfl⟩
  · simp [goodEnv, ac200_ephy_probe, acWriteRegs, h0]
  · simp [goodEnv, ac200_ephy_probe, acWriteRegs, h0, h1]
  · simp [goodEnv, ac200_ephy_probe, acWriteRegs, h0, h1, h2]

/-- C3 amended witness: with the first control-register write failing with
status -5, probe returns -5 having issued exactly that one write. -/
theorem write_error_propagation_amended_witness :
    (ac200_ephy_probe (goodEnv 0 (-5) 0 0 0)).2 = -5 ∧
    acWriteRegs (ac200_ephy_probe (goodEnv 0 (-5) 0 0 0)).1 = [AcReg.sysEphyCtl0] :=
  (write_error_propagation_amended 0 (-5) 0 0 0 PhyInterface.mii
    (fun _ => 0) (fun _ => 0)).1 (by norm_num)

/-- C4: if any of the three ac200_reg_write calls or the phy_driver_register
call fails, probe returns that status immediately: the operation sequence
ends right after the failing call (none of the subsequent writes are issued)
and phy_driver_register appears in the sequence only when all three register
writes succeeded. -/
theorem probe_failure_aborts (v : Nat) (w0 w1 w2 r : Int) :
    (w0 ≠ 0 → ac200_ephy_probe (goodEnv v w0 w1 w2 r)
        = ([Op.acWrite AcReg.sysEphyCtl0 sysCtl0Val], w0)) ∧
    (w0 = 0 → w1 ≠ 0 → ac200_ephy_probe (goodEnv v w0 w1 w2 r)
        = ([Op.acWrite AcReg.sysEphyCtl0 sysCtl0Val,
            Op.acWrite AcReg.sysEphyCtl1 sysCtl1Val], w1)) ∧
    (w0 = 0 → w1 = 0 → w2 ≠ 0 → ac200_ephy_probe (goodEnv v w0 w1 w2 r)
        = ([Op.acWrite AcReg.sysEphyCtl0 sysCtl0Val,
            Op.acWrite AcReg.sysEphyCtl1 sysCtl1Val,
            Op.acWrite AcReg.ephyCtl (ephyCtlVal ((v + 3) % 65536))], w2)) ∧
    (w0 = 0 → w1 = 0 → w2 = 0 → r ≠ 0 → ac200_ephy_probe (goodEnv v w0 w1 w2 r)
        = ([Op.acWrite AcReg.sysEphyCtl0 sysCtl0Val,
            Op.acWrite AcReg.sysEphyCtl1 sysCtl1Val,
            Op.acWrite AcReg.ephyCtl (ephyCtlVal ((v + 3) % 65536)),
            Op.phyRegister], r)) ∧
    (Op.phyRegister ∈ (ac200_ephy_probe (goodEnv v w0 w1 w2 r)).1 →
      w0 = 0 ∧ w1 = 0 ∧ w2 = 0) := by
  refine ⟨fun h0 => ?_, fun h0 h1 => ?_, fun h0 h1 h2 => ?_, fun h0 h1 h2 h3 => ?_, ?_⟩
  · simp [goodEnv, ac200_ephy_probe, sysCtl0Val, h0]
  · simp [goodEnv, ac200_ephy_probe, sysCtl0Val, sysCtl1Val, h0, h1]
  · simp [goodEnv, ac200_ephy_probe, sysCtl0Val, sysCtl1Val, ephyCtlVal, h0, h1, h2]
  · simp [goodEnv, ac200_ephy_probe, sysCtl0Val, sysCtl1Val, ephyCtlVal,
      h0, h1, h2, h3]
  · by_cases h0 : w0 = 0 <;> by_cases h1 : w1 = 0 <;> by_cases h2 : w2 = 0 <;>
      by_cases h3 : r = 0 <;>
      simp [goodEnv, ac200_ephy_probe, h0, h1, h2, h3]

/-- C4 witness: with the second control-register write failing with status
-7, probe stops after two writes and returns -7. -/
theorem probe_failure_aborts_witness :
    ac200_ephy_probe (goodEnv 0 0 (-7) 0 0)
      = ([Op.acWrite AcReg.sysEphyCtl0 sysCtl0Val,
          Op.acWrite AcReg.sysEphyCtl1 sysCtl1Val], -7) :=
  (probe_failure_aborts 0 0 (-7) 0 0).2.1 rfl (by norm_num)

/-- C5: config_init updates AC200_EPHY_CTL through a single masked
ac200_reg_mod with mask AC200_EPHY_XMII_SEL whose value is
AC200_EPHY_XMII_SEL exactly when the interface mode is RMII and 0 otherwise;
applying that masked update sets bit 11 of the register to (mode = RMII) and
leaves every other bit of the old value unchanged; and the shape of the
access sequence (which operations, to which registers, in which order) is
identical across all interface modes, read values and write statuses — the
interface-mode test changes a single written value, never the control
flow. -/
theorem config_init_xmii_sel (mode mode2 : PhyInterface)
    (reads reads2 : Nat → Nat) (werr werr2 : Nat → Int) (old : Nat) :
    acMods (ac200_ephy_config_init mode reads werr).1
      = [(AcReg.ephyCtl, AC200_EPHY_XMII_SEL,
          if mode = PhyInterface.rmii then AC200_EPHY_XMII_SEL else 0)] ∧
    ((ac200_reg_mod_apply old AC200_EPHY_XMII_SEL
        (if mode = PhyInterface.rmii then AC200_EPHY_XMII_SEL else 0)).testBit 11
      = decide (mode = PhyInterface.rmii)) ∧
    (∀ i, i ≠ 11 →
      (ac200_reg_mod_apply old AC200_EPHY_XMII_SEL
          (if mode = PhyInterface.rmii then AC200_EPHY_XMII_SEL else 0)).testBit i
        = old.testBit i) ∧
    ((ac200_ephy_config_init mode reads werr).1.map opShape
      = (ac200_ephy_config_init mode2 reads2 werr2).1.map opShape) := by
  refine ⟨?_, ?_, fun i hi => reg_mod_xmii_other old _ i hi, ?_⟩
  · simp [acMods, ac200_ephy_config_init, disable_intelligent_ieee,
      disable_802_3az_ieee]
  · rw [reg_mod_xmii_bit11]
    by_cases hm : mode = PhyInterface.rmii <;>
      simp [hm, AC200_EPHY_XMII_SEL, BIT, testBit_2048_self]
  · simp [ac200_ephy_config_init, disable_intelligent_ieee, disable_802_3az_ieee,
      opShape]

/-- C5 witness: at a non-RMII mode the masked update leaves bit 0 of the old
register value 5 unchanged. -/
theorem config_init_xmii_sel_witness :
    (ac200_reg_mod_apply 5 AC200_EPHY_XMII_SEL 0).testBit 0 = Nat.testBit 5 0 := by
  simpa using
    (config_init_xmii_sel PhyInterface.mii PhyInterface.rmii (fun _ => 0)
      (fun _ => 1) (fun _ => 0) (fun _ => 0) 5).2.2.1 0 (by decide)

/-- C6: remove first unregisters the PHY driver and only then powers down,
writing AC200_EPHY_CTL := AC200_EPHY_SHUTDOWN, then AC200_SYS_EPHY_CTL1 := 0,
then AC200_SYS_EPHY_CTL0 := 0 — the reverse of the register order of a fully
successful probe — and every AC200 register write in the remove sequence
occurs strictly after the unregister operation. -/
theorem remove_unregisters_then_powers_down (werr : Nat → Int) (v : Nat) (r : Int) :
    ac200_ephy_remove werr
      = ([Op.phyUnregister,
          Op.acWrite AcReg.ephyCtl AC200_EPHY_SHUTDOWN,
          Op.acWrite AcReg.sysEphyCtl1 0,
          Op.acWrite AcReg.sysEphyCtl0 0], 0) ∧
    acWriteRegs (ac200_ephy_remove werr).1
      = (acWriteRegs (ac200_ephy_probe (goodEnv v 0 0 0 r)).1).reverse ∧
    (∀ i op, ((ac200_ephy_remove werr).1)[i]? = some op → op.isAcWrite = true →
      ((ac200_ephy_remove werr).1)[0]? = some Op.phyUnregister ∧ 0 < i) := by
  refine ⟨rfl, ?_, ?_⟩
  · by_cases hr : r = 0 <;>
      simp [goodEnv, ac200_ephy_probe, ac200_ephy_remove, acWriteRegs, hr]
  · intro i op h hw
    refine ⟨rfl, ?_⟩
    cases i with
    | zero =>
        simp [ac200_ephy_remove] at h
        rw [← h] at hw
        simp [Op.isAcWrite] at hw
    | succ n => exact Nat.succ_pos n

/-- C6 witness: in the remove sequence the shutdown write sits at index 1,
after the unregister operation at index 0. -/
theorem remove_unregisters_then_powers_down_witness :
    ((ac200_ephy_remove (fun _ => 0)).1)[0]? = some Op.phyUnregister ∧ 0 < 1 :=
  (remove_unregisters_then_powers_down (fun _ => 0) 0 0).2.2 1
    (Op.acWrite AcReg.ephyCtl AC200_EPHY_SHUTDOWN) (by decide) (by decide)

/-- C7: config_init is deterministic and fixed: two invocations with the
same interface mode whose buses return the same three read values issue the
identical operation sequence (same page switches, registers and values, in
the same order) and the same return value, regardless of every other input —
in particular the statuses of the phy_write calls. -/
theorem config_init_deterministic (mode : PhyInterface) (reads reads2 : Nat → Nat)
    (werr werr2 : Nat → Int) (h0 : reads 0 = reads2 0) (h1 : reads 1 = reads2 1)
    (h2 : reads 2 = reads2 2) :
    ac200_ephy_config_init mode reads werr
      = ac200_ephy_config_init mode reads2 werr2 := by
  simp [ac200_ephy_config_init, disable_intelligent_ieee, disable_802_3az_ieee,
    h0, h1, h2]

/-- C7 witness: two environments that agree on the three consumed read
values but differ elsewhere yield identical config_init behaviour. -/
theorem config_init_deterministic_witness :
    ac200_ephy_config_init PhyInterface.rmii (fun n => n) (fun _ => 0)
      = ac200_ephy_config_init PhyInterface.rmii
          (fun n => if n < 3 then n else 99) (fun _ => -1) :=
  config_init_deterministic PhyInterface.rmii _ _ _ _ rfl rfl rfl

/-- C8: the power-saving disables are read-modify-write: the value written
back to page-1 register 0x17 is the value read with exactly bit 3 cleared
(every other bit of the 32-bit value preserved); the value written back
through the MMD 0xd/0xe indirection (device 7, register 0x3c) is the value
read with exactly bit 1 cleared; the 802.3az block then writes 0 to page-2
register 0x18, and in config_init the switch back to page 0 immediately
follows that write. -/
theorem disable_ieee_rmw (r17 re : Nat) (mode : PhyInterface)
    (reads : Nat → Nat) (werr : Nat → Int) :
    (disable_intelligent_ieee r17
      = [Op.phyWrite 0x1f 0x0100, Op.phyRead 0x17 r17,
         Op.phyWrite 0x17 (r17 &&& 0xFFFFFFF7), Op.phyWrite 0x1f 0x0000]) ∧
    ((r17 &&& 0xFFFFFFF7).testBit 3 = false) ∧
    (∀ i, i < 32 → i ≠ 3 → (r17 &&& 0xFFFFFFF7).testBit i = r17.testBit i) ∧
    (disable_802_3az_ieee re
      = [Op.phyWrite 0xd 0x7, Op.phyWrite 0xe 0x3c, Op.phyWrite 0xd 0x4007,
         Op.phyRead 0xe re, Op.phyWrite 0xd 0x7, Op.phyWrite 0xe 0x3c,
         Op.phyWrite 0xd 0x4007, Op.phyWrite 0xe (re &&& 0xFFFFFFFD),
         Op.phyWrite 0x1f 0x0200, Op.phyWrite 0x18 0x0000]) ∧
    ((re &&& 0xFFFFFFFD).testBit 1 = false) ∧
    (∀ i, i < 32 → i ≠ 1 → (re &&& 0xFFFFFFFD).testBit i = re.testBit i) ∧
    (((ac200_ephy_config_init mode reads werr).1)[22]?
        = some (Op.phyWrite 0x1f 0x0200) ∧
      ((ac200_ephy_config_init mode reads werr).1)[23]?
        = some (Op.phyWrite 0x18 0x0000) ∧
      ((ac200_ephy_config_init mode reads werr).1)[24]?
        = some (Op.phyWrite 0x1f 0x0000)) := by
  refine ⟨rfl, ?_, fun i h32 h3 => ?_, rfl, ?_, fun i h32 h1 => ?_, rfl, rfl, rfl⟩
  · simp [Nat.testBit_and, (by decide : Nat.testBit 0xFFFFFFF7 3 = false)]
  · rw [Nat.testBit_and, mask_f7_testBit i h32 h3, Bool.and_true]
  · simp [Nat.testBit_and, (by decide : Nat.testBit 0xFFFFFFFD 1 = false)]
  · rw [Nat.testBit_and, mask_fd_testBit i h32 h1, Bool.and_true]

/-- C8 witness: bit 0 of the value read from page-1 register 0x17 survives
the read-modify-write that clears bit 3. -/
theorem disable_ieee_rmw_witness :
    ((5 : Nat) &&& 0xFFFFFFF7).testBit 0 = Nat.testBit 5 0 :=
  (disable_ieee_rmw 5 0 PhyInterface.mii (fun _ => 0) (fun _ => 0)).2.2.1 0
    (by decide) (by decide)

/-- C10: remove returns 0 for every environment, and its operation sequence
does not depend on the statuses the three power-down register writes would
return — a failed power-down write is never reported to the caller. -/
theorem remove_returns_zero : ∀ werr werr2 : Nat → Int,
    (ac200_ephy_remove werr).2 = 0 ∧
      ac200_ephy_remove werr = ac200_ephy_remove werr2 :=
  fun _ _ => ⟨rfl, rfl⟩

end AC200
